import Mathlib

deriving instance DecidableEq for Except

/-!
Shallow embedding of `crate-narinfo` (src/lib.rs): a line-oriented parser
for NarInfo binary-cache metadata records.  Rust strings are modelled as
Lean `String` (a wrapper around `List Char`); `u64` values as `Nat` with
explicit `< 2^64` overflow checks; fallible functions return `Except`.
-/

/-- The size bound of Rust's `u64`. -/
def u64Bound : Nat := 2 ^ 64

/-- Number of bytes of the UTF-8 encoding of a character (Rust `str` offsets
are byte offsets, e.g. the result of `str::find`). -/
def utf8CharSize (c : Char) : Nat :=
  if c.toNat < 0x80 then 1
  else if c.toNat < 0x800 then 2
  else if c.toNat < 0x10000 then 3
  else 4

/-- UTF-8 byte length of a character list (Rust `str::len`). -/
def utf8Len : List Char → Nat
  | [] => 0
  | c :: l => utf8CharSize c + utf8Len l

/-- Rust `char::is_whitespace`: the Unicode White_Space property. -/
def rustIsWhitespace (c : Char) : Bool :=
  let n := c.toNat
  (9 ≤ n && n ≤ 13) || n = 32 || n = 0x85 || n = 0xA0 || n = 0x1680 ||
    (0x2000 ≤ n && n ≤ 0x200A) || n = 0x2028 || n = 0x2029 || n = 0x202F ||
    n = 0x205F || n = 0x3000

/-- Rust `str::trim`: remove leading and trailing whitespace. -/
def rustTrim (s : String) : String :=
  ⟨((s.data.dropWhile rustIsWhitespace).reverse.dropWhile rustIsWhitespace).reverse⟩

/-- Rust `str::split_once(":")`: split at the first `':'`, returning the part
before and the part after it, or `none` when no `':'` occurs. -/
def splitOnceColon : List Char → Option (List Char × List Char)
  | [] => none
  | c :: rest =>
    if c = ':' then some ([], rest)
    else (splitOnceColon rest).map (fun p => (c :: p.1, p.2))

/-- Rust `str::find(' ')`: UTF-8 byte offset of the first space, if any. -/
def findSpaceBytePos : List Char → Option Nat
  | [] => none
  | c :: rest =>
    if c = ' ' then some 0
    else (findSpaceBytePos rest).map (fun n => utf8CharSize c + n)

/-- The observable kind of Rust's `std::num::ParseIntError` for an unsigned
target type (`IntErrorKind`): empty input, invalid digit, positive overflow. -/
inductive IntErrorKind
  | Empty
  | InvalidDigit
  | PosOverflow
deriving DecidableEq, Repr

/-- Digit-consuming loop of Rust `u64::from_str_radix(s, 10)`: fold the
digits left to right, failing with `InvalidDigit` at the first non-digit and
with `PosOverflow` as soon as the accumulator would exceed `u64::MAX`. -/
def parseU64Digits : List Char → Nat → Except IntErrorKind Nat
  | [], acc => .ok acc
  | c :: rest, acc =>
    if c.isDigit then
      let d := c.toNat - 48
      if acc * 10 + d < u64Bound then parseU64Digits rest (acc * 10 + d)
      else .error .PosOverflow
    else .error .InvalidDigit

/-- Rust `u64::from_str_radix(s, 10)` on the character list: an empty
string is `Empty`; a single leading `'+'` is permitted and skipped (a bare
`"+"` is `InvalidDigit`); a leading `'-'` is `InvalidDigit` for an unsigned
target; otherwise the digit loop runs on the whole input. -/
def rustParseU64Core : List Char → Except IntErrorKind Nat
  | [] => .error .Empty
  | c :: rest =>
    if c = '+' then
      (if rest = [] then .error .InvalidDigit else parseU64Digits rest 0)
    else if c = '-' then .error .InvalidDigit
    else parseU64Digits (c :: rest) 0

/-- Rust `str::parse::<u64>`. -/
def rustParseU64 (s : String) : Except IntErrorKind Nat :=
  rustParseU64Core s.data

/-- `NarInfoId`: the hash-name part of a store path (src/lib.rs line 6). -/
structure NarInfoId where
  val : String
deriving DecidableEq, Repr

/-- `DerivationId`: the hash-name part of a derivation's store path
(src/lib.rs line 11). -/
structure DerivationId where
  val : String
deriving DecidableEq, Repr

/-- The `NarInfo` record (src/lib.rs lines 17-50); `PathBuf` is modelled as
`String`, `u64` as `Nat`. -/
structure NarInfo where
  storepath : String
  url : String
  compression : String
  file_hash : String
  file_size : Nat
  nar_hash : String
  nar_size : Nat
  references : List NarInfoId
  deriver : DerivationId
  signature : String
deriving DecidableEq, Repr

/-- `NarInfoDatum` (src/lib.rs lines 53-64): one typed, parsed line. -/
inductive NarInfoDatum
  | Compression (s : String)
  | Deriver (d : DerivationId)
  | FileHash (s : String)
  | FileSize (n : Nat)
  | NarHash (s : String)
  | NarSize (n : Nat)
  | References (rs : List NarInfoId)
  | Sig (s : String)
  | StorePath (p : String)
  | Url (s : String)
deriving DecidableEq, Repr

/-- `ParseErr` (src/lib.rs lines 67-72); `InvalidU64` carries the key and the
kind of the `ParseIntError` (its observable content, cf. the crate's tests). -/
inductive ParseErr
  | LineCorruptNoColon (line : String)
  | LineUnknownKey (key : String)
  | InvalidU64 (key : String) (err : IntErrorKind)
  | UnexpectedSpace (key : String) (pos : Nat)
deriving DecidableEq, Repr

/-- `NarInfo::parse_str_no_spaces` (src/lib.rs lines 77-83). -/
def NarInfo.parse_str_no_spaces (key remainder : String) :
    Except ParseErr String :=
  match findSpaceBytePos remainder.data with
  | some position => .error (.UnexpectedSpace key position)
  | none => .ok remainder

/-- `NarInfo::parse_u64` (src/lib.rs lines 85-89). -/
def NarInfo.parse_u64 (key remainder : String) : Except ParseErr Nat :=
  match rustParseU64 remainder with
  | .error e => .error (.InvalidU64 key e)
  | .ok n => .ok n

/-- `NarInfo::parse_line` (src/lib.rs lines 91-106): split at the first
colon, trim the remainder, dispatch on the key. -/
def NarInfo.parse_line (line : String) : Except ParseErr NarInfoDatum :=
  match splitOnceColon line.data with
  | none => .error (.LineCorruptNoColon line)
  | some (keyChars, remChars) =>
    let key : String := ⟨keyChars⟩
    let remainder : String := rustTrim ⟨remChars⟩
    if key = "Compression" then
      (NarInfo.parse_str_no_spaces key remainder).map .Compression
    else if key = "FileSize" then
      (NarInfo.parse_u64 key remainder).map .FileSize
    else if key = "NarSize" then
      (NarInfo.parse_u64 key remainder).map .NarSize
    else
      .error (.LineUnknownKey key)

/-- Modelled from the spec: the Record Assembler's error taxonomy (§7);
`NarInfo::parse_string` is `todo!()` in src/lib.rs, so the assembler is
missing from the source.  A field-parser error is tagged with its 1-based
line number (§4.2 step 2). -/
inductive AssembleErr
  | Line (lineNo : Nat) (e : ParseErr)
  | DuplicateField (key : String) (firstLine secondLine : Nat)
  | MissingField (keys : List String)
  | DocumentEmpty
deriving DecidableEq, Repr

/-- Modelled from the spec: §4.2 step 1 splits the document on the line
terminator `'\n'`. -/
def splitNl : List Char → List (List Char)
  | [] => [[]]
  | c :: rest =>
    if c = '\n' then [] :: splitNl rest
    else
      match splitNl rest with
      | [] => [[c]]
      | l :: ls => (c :: l) :: ls

/-- Modelled from the spec: §4.2 step 1, tolerating an optional trailing
empty line; the empty document yields zero lines. -/
def docLines (s : String) : List (List Char) :=
  let ls := splitNl s.data
  if ls.getLast? = some [] then ls.dropLast else ls

/-- Modelled from the spec: the Record Assembler's per-key seen tracker
(§4.2 step 3); each slot remembers the 1-based line number that set it. -/
structure Builder where
  storepath : Option (Nat × String) := none
  url : Option (Nat × String) := none
  compression : Option (Nat × String) := none
  file_hash : Option (Nat × String) := none
  file_size : Option (Nat × Nat) := none
  nar_hash : Option (Nat × String) := none
  nar_size : Option (Nat × Nat) := none
  references : Option (Nat × List NarInfoId) := none
  deriver : Option (Nat × DerivationId) := none
  signature : Option (Nat × String) := none
deriving DecidableEq, Repr

/-- Modelled from the spec: §4.2 steps 3-4, committing one typed datum into
the builder; a repeated key fails with `DuplicateField` carrying both line
numbers (`References` may appear at most once, §4.2 step 4). -/
def stepBuilder (b : Builder) (lineNo : Nat) (d : NarInfoDatum) :
    Except AssembleErr Builder :=
  match d with
  | .StorePath p =>
    match b.storepath with
    | some (i, _) => .error (.DuplicateField "StorePath" i lineNo)
    | none => .ok { b with storepath := some (lineNo, p) }
  | .Url s =>
    match b.url with
    | some (i, _) => .error (.DuplicateField "URL" i lineNo)
    | none => .ok { b with url := some (lineNo, s) }
  | .Compression s =>
    match b.compression with
    | some (i, _) => .error (.DuplicateField "Compression" i lineNo)
    | none => .ok { b with compression := some (lineNo, s) }
  | .FileHash s =>
    match b.file_hash with
    | some (i, _) => .error (.DuplicateField "FileHash" i lineNo)
    | none => .ok { b with file_hash := some (lineNo, s) }
  | .FileSize n =>
    match b.file_size with
    | some (i, _) => .error (.DuplicateField "FileSize" i lineNo)
    | none => .ok { b with file_size := some (lineNo, n) }
  | .NarHash s =>
    match b.nar_hash with
    | some (i, _) => .error (.DuplicateField "NarHash" i lineNo)
    | none => .ok { b with nar_hash := some (lineNo, s) }
  | .NarSize n =>
    match b.nar_size with
    | some (i, _) => .error (.DuplicateField "NarSize" i lineNo)
    | none => .ok { b with nar_size := some (lineNo, n) }
  | .References rs =>
    match b.references with
    | some (i, _) => .error (.DuplicateField "References" i lineNo)
    | none => .ok { b with references := some (lineNo, rs) }
  | .Deriver dv =>
    match b.deriver with
    | some (i, _) => .error (.DuplicateField "Deriver" i lineNo)
    | none => .ok { b with deriver := some (lineNo, dv) }
  | .Sig s =>
    match b.signature with
    | some (i, _) => .error (.DuplicateField "Sig" i lineNo)
    | none => .ok { b with signature := some (lineNo, s) }

/-- Modelled from the spec: §4.2 step 5's required-field check; the keys of
the required fields absent from the builder, in the order the spec lists
the key vocabulary. -/
def missingKeys (b : Builder) : List String :=
  (if b.storepath.isNone then ["StorePath"] else []) ++
  (if b.url.isNone then ["URL"] else []) ++
  (if b.compression.isNone then ["Compression"] else []) ++
  (if b.file_hash.isNone then ["FileHash"] else []) ++
  (if b.file_size.isNone then ["FileSize"] else []) ++
  (if b.nar_hash.isNone then ["NarHash"] else []) ++
  (if b.nar_size.isNone then ["NarSize"] else []) ++
  (if b.deriver.isNone then ["Deriver"] else []) ++
  (if b.signature.isNone then ["Sig"] else [])

/-- Modelled from the spec: §4.2 steps 5-6; every missing required field is
reported at once, `references` defaults to the empty list, and the record
is constructed only from a complete builder. -/
def finishBuilder (b : Builder) : Except AssembleErr NarInfo :=
  match b.storepath, b.url, b.compression, b.file_hash, b.file_size,
      b.nar_hash, b.nar_size, b.deriver, b.signature with
  | some (_, sp), some (_, u), some (_, co), some (_, fh), some (_, fs),
      some (_, nh), some (_, ns), some (_, dv), some (_, sg) =>
    .ok { storepath := sp, url := u, compression := co, file_hash := fh,
          file_size := fs, nar_hash := nh, nar_size := ns,
          references := (b.references.map Prod.snd).getD [],
          deriver := dv, signature := sg }
  | _, _, _, _, _, _, _, _, _ => .error (.MissingField (missingKeys b))

/-- Modelled from the spec: §4.2 step 2's fail-fast loop over the lines,
numbering lines from 1 and aborting at the first field-parser failure. -/
def assembleLoop : List (List Char) → Nat → Builder → Except AssembleErr NarInfo
  | [], _, b => finishBuilder b
  | l :: rest, n, b =>
    match NarInfo.parse_line ⟨l⟩ with
    | .error e => .error (.Line n e)
    | .ok d =>
      match stepBuilder b n d with
      | .error e => .error e
      | .ok b2 => assembleLoop rest (n + 1) b2

/-- Modelled from the spec: `NarInfo::parse_string` (src/lib.rs lines
108-110) is `todo!()`; this is the Record Assembler of §4.2 driving the
implemented field parser `parse_line`, with the structured errors of §7. -/
def NarInfo.parse_string (nar : String) : Except AssembleErr NarInfo :=
  let ls := docLines nar
  if ls = [] then .error .DocumentEmpty
  else assembleLoop ls 1 {}

/-! Helper lemmas about the embedded string primitives. -/

theorem str_data_append (a b : String) : (a ++ b).data = a.data ++ b.data :=
  rfl

theorem splitOnceColon_of_no_colon (l : List Char) (h : ∀ c ∈ l, c ≠ ':') :
    splitOnceColon l = none := by
  induction l with
  | nil => rfl
  | cons c rest ih =>
    have hc : c ≠ ':' := h c (List.mem_cons_self c rest)
    simp only [splitOnceColon, if_neg hc,
      ih fun d hd => h d (List.mem_cons_of_mem c hd), Option.map_none']

theorem splitOnceColon_append (k v : List Char) (h : ∀ c ∈ k, c ≠ ':') :
    splitOnceColon (k ++ ':' :: v) = some (k, v) := by
  induction k with
  | nil => simp [splitOnceColon]
  | cons c rest ih =>
    have hc : c ≠ ':' := h c (List.mem_cons_self c rest)
    simp only [List.cons_append, splitOnceColon, if_neg hc, List.append_eq,
      ih fun d hd => h d (List.mem_cons_of_mem c hd), Option.map_some']

theorem findSpaceBytePos_of_no_space (l : List Char) (h : ∀ c ∈ l, c ≠ ' ') :
    findSpaceBytePos l = none := by
  induction l with
  | nil => rfl
  | cons c rest ih =>
    have hc : c ≠ ' ' := h c (List.mem_cons_self c rest)
    simp only [findSpaceBytePos, if_neg hc,
      ih fun d hd => h d (List.mem_cons_of_mem c hd), Option.map_none']

theorem findSpaceBytePos_append (p s : List Char) (h : ∀ c ∈ p, c ≠ ' ') :
    findSpaceBytePos (p ++ ' ' :: s) = some (utf8Len p) := by
  induction p with
  | nil => simp [findSpaceBytePos, utf8Len]
  | cons c rest ih =>
    have hc : c ≠ ' ' := h c (List.mem_cons_self c rest)
    simp only [List.cons_append, findSpaceBytePos, if_neg hc, List.append_eq,
      ih fun d hd => h d (List.mem_cons_of_mem c hd), Option.map_some',
      utf8Len]

theorem parseU64Digits_ok_all_digits (l : List Char) (acc n : Nat)
    (h : parseU64Digits l acc = .ok n) : l.all Char.isDigit := by
  induction l generalizing acc with
  | nil => rfl
  | cons c rest ih =>
    unfold parseU64Digits at h
    by_cases hc : c.isDigit
    · rw [if_pos hc] at h
      by_cases hb : acc * 10 + (c.toNat - 48) < u64Bound
      · rw [if_pos hb] at h
        simpa [List.all_cons, hc] using ih _ h
      · rw [if_neg hb] at h
        exact absurd h (by simp)
    · rw [if_neg hc] at h
      exact absurd h (by simp)

/-- Dispatch shape of `parse_line` once the first colon is located: for a
colon-free key, the line `key ++ ":" ++ v` is routed by exact key match with
the value trimmed first. -/
theorem parse_line_append (k v : String) (h : ∀ c ∈ k.data, c ≠ ':') :
    NarInfo.parse_line (k ++ ":" ++ v) =
      (if k = "Compression" then
        (NarInfo.parse_str_no_spaces k (rustTrim v)).map .Compression
      else if k = "FileSize" then
        (NarInfo.parse_u64 k (rustTrim v)).map .FileSize
      else if k = "NarSize" then
        (NarInfo.parse_u64 k (rustTrim v)).map .NarSize
      else .error (.LineUnknownKey k)) := by
  have hdata : (k ++ ":" ++ v).data = k.data ++ ':' :: v.data := by
    simp [str_data_append]
  unfold NarInfo.parse_line
  rw [hdata, splitOnceColon_append k.data v.data h]

/-- The `Compression` branch of `parse_line`. -/
theorem parse_line_compression (v : String) :
    NarInfo.parse_line ("Compression:" ++ v) =
      (NarInfo.parse_str_no_spaces "Compression" (rustTrim v)).map .Compression := by
  have e : ("Compression:" ++ v : String) = "Compression" ++ ":" ++ v := rfl
  rw [e, parse_line_append "Compression" v (by decide), if_pos rfl]

/-- The `FileSize` branch of `parse_line`. -/
theorem parse_line_filesize (v : String) :
    NarInfo.parse_line ("FileSize:" ++ v) =
      (NarInfo.parse_u64 "FileSize" (rustTrim v)).map .FileSize := by
  have e : ("FileSize:" ++ v : String) = "FileSize" ++ ":" ++ v := rfl
  rw [e, parse_line_append "FileSize" v (by decide), if_neg (by decide),
    if_pos rfl]

/-- The `NarSize` branch of `parse_line`. -/
theorem parse_line_narsize (v : String) :
    NarInfo.parse_line ("NarSize:" ++ v) =
      (NarInfo.parse_u64 "NarSize" (rustTrim v)).map .NarSize := by
  have e : ("NarSize:" ++ v : String) = "NarSize" ++ ":" ++ v := rfl
  rw [e, parse_line_append "NarSize" v (by decide), if_neg (by decide),
    if_neg (by decide), if_pos rfl]

/-- Every key other than the three implemented ones is rejected. -/
theorem parse_line_unknown (k v : String) (h1 : ∀ c ∈ k.data, c ≠ ':')
    (h2 : k ≠ "Compression") (h3 : k ≠ "FileSize") (h4 : k ≠ "NarSize") :
    NarInfo.parse_line (k ++ ":" ++ v) = .error (.LineUnknownKey k) := by
  rw [parse_line_append k v h1, if_neg h2, if_neg h3, if_neg h4]

theorem parse_str_no_spaces_ok (key v : String) (h : ∀ c ∈ v.data, c ≠ ' ') :
    NarInfo.parse_str_no_spaces key v = .ok v := by
  unfold NarInfo.parse_str_no_spaces
  rw [findSpaceBytePos_of_no_space v.data h]

/-! Claim theorems. -/

/-- C1, counterexample: a well-formed `Deriver` line does NOT decode to a
`DerivationId`; it falls into the `LineUnknownKey` branch of `parse_line`,
refuting the claim that every §4.1 vocabulary key yields its typed datum. -/
theorem c1_counterexample_deriver_unknown_key :
    NarInfo.parse_line "Deriver: x.drv" = .error (.LineUnknownKey "Deriver") := by
  decide

/-- C1, amended: `parse_line` returns the exactly corresponding typed datum
for the three implemented keys `Compression`, `FileSize` and `NarSize`
paired with valid values; every other §4.1 vocabulary key — `StorePath`,
`URL`, `FileHash`, `NarHash`, `References`, `Deriver`, `Sig` — falls into
the `LineUnknownKey` branch, a well-formed `Deriver` line included. -/
theorem c1_amended_vocabulary :
    (∀ v : String, (∀ c ∈ v.data, c ≠ ' ') → rustTrim v = v →
        NarInfo.parse_line ("Compression:" ++ v) = .ok (.Compression v)) ∧
    (∀ (v : String) (n : Nat), rustTrim v = v → rustParseU64 v = .ok n →
        NarInfo.parse_line ("FileSize:" ++ v) = .ok (.FileSize n)) ∧
    (∀ (v : String) (n : Nat), rustTrim v = v → rustParseU64 v = .ok n →
        NarInfo.parse_line ("NarSize:" ++ v) = .ok (.NarSize n)) ∧
    (∀ v : String, NarInfo.parse_line ("StorePath:" ++ v) =
        .error (.LineUnknownKey "StorePath")) ∧
    (∀ v : String, NarInfo.parse_line ("URL:" ++ v) =
        .error (.LineUnknownKey "URL")) ∧
    (∀ v : String, NarInfo.parse_line ("FileHash:" ++ v) =
        .error (.LineUnknownKey "FileHash")) ∧
    (∀ v : String, NarInfo.parse_line ("NarHash:" ++ v) =
        .error (.LineUnknownKey "NarHash")) ∧
    (∀ v : String, NarInfo.parse_line ("References:" ++ v) =
        .error (.LineUnknownKey "References")) ∧
    (∀ v : String, NarInfo.parse_line ("Deriver:" ++ v) =
        .error (.LineUnknownKey "Deriver")) ∧
    (∀ v : String, NarInfo.parse_line ("Sig:" ++ v) =
        .error (.LineUnknownKey "Sig")) := by
  refine ⟨?_, ?_, ?_, ?_, ?_, ?_, ?_, ?_, ?_, ?_⟩
  · intro v hs ht
    rw [parse_line_compression v, ht, parse_str_no_spaces_ok "Compression" v hs]
    rfl
  · intro v n ht hp
    rw [parse_line_filesize v, ht]
    unfold NarInfo.parse_u64
    rw [hp]
    rfl
  · intro v n ht hp
    rw [parse_line_narsize v, ht]
    unfold NarInfo.parse_u64
    rw [hp]
    rfl
  · intro v
    exact parse_line_unknown "StorePath" v (by decide) (by decide) (by decide)
      (by decide)
  · intro v
    exact parse_line_unknown "URL" v (by decide) (by decide) (by decide)
      (by decide)
  · intro v
    exact parse_line_unknown "FileHash" v (by decide) (by decide) (by decide)
      (by decide)
  · intro v
    exact parse_line_unknown "NarHash" v (by decide) (by decide) (by decide)
      (by decide)
  · intro v
    exact parse_line_unknown "References" v (by decide) (by decide) (by decide)
      (by decide)
  · intro v
    exact parse_line_unknown "Deriver" v (by decide) (by decide) (by decide)
      (by decide)
  · intro v
    exact parse_line_unknown "Sig" v (by decide) (by decide) (by decide)
      (by decide)

/-- C1, witness: the amended theorem at concrete inputs — a valid
`Compression` line decodes, and a well-formed `Deriver` line is an unknown
key. -/
theorem c1_amended_vocabulary_witness :
    NarInfo.parse_line ("Compression:" ++ "xz") = .ok (.Compression "xz") ∧
    NarInfo.parse_line ("Deriver:" ++ " x.drv") =
      .error (.LineUnknownKey "Deriver") :=
  ⟨c1_amended_vocabulary.1 "xz" (by decide) (by decide),
   c1_amended_vocabulary.2.2.2.2.2.2.2.2.1 " x.drv"⟩

/-- C6: a whitespace-free-field value whose first space splits it as
`p ++ " " ++ s` (no space in `p`) fails with `UnexpectedSpace` carrying the
key and exactly the byte offset of that first space; in particular the line
`"Compression: x z"` yields `UnexpectedSpace "Compression" 1`. -/
theorem c6_unexpected_space_offset :
    (∀ (key v : String) (p s : List Char), v.data = p ++ ' ' :: s →
        (∀ c ∈ p, c ≠ ' ') →
        NarInfo.parse_str_no_spaces key v =
          .error (.UnexpectedSpace key (utf8Len p))) ∧
    NarInfo.parse_line "Compression: x z" =
      .error (.UnexpectedSpace "Compression" 1) := by
  constructor
  · intro key v p s hv hp
    unfold NarInfo.parse_str_no_spaces
    rw [hv, findSpaceBytePos_append p s hp]
  · decide

/-- C6, witness: the first space of `"foo bar baz"` sits at byte offset 3
(this is the crate's own `parse_str_unexpected_space_err` test vector). -/
theorem c6_unexpected_space_offset_witness :
    NarInfo.parse_str_no_spaces "FooStr" "foo bar baz" =
      .error (.UnexpectedSpace "FooStr" 3) :=
  c6_unexpected_space_offset.1 "FooStr" "foo bar baz"
    ['f', 'o', 'o'] ['b', 'a', 'r', ' ', 'b', 'a', 'z'] (by decide) (by decide)

/-- C7: `parse_line` splits at the first colon only — the key is everything
before it, matched case-sensitively and exactly, and the raw value is
everything after it, trimmed before type-specific decoding; a line with no
colon at all fails with `LineCorruptNoColon`. -/
theorem c7_first_colon_split :
    (∀ line : String, (∀ c ∈ line.data, c ≠ ':') →
        NarInfo.parse_line line = .error (.LineCorruptNoColon line)) ∧
    (∀ v : String, NarInfo.parse_line ("Compression:" ++ v) =
        (NarInfo.parse_str_no_spaces "Compression" (rustTrim v)).map
          .Compression) ∧
    (∀ v : String, NarInfo.parse_line ("FileSize:" ++ v) =
        (NarInfo.parse_u64 "FileSize" (rustTrim v)).map .FileSize) ∧
    (∀ v : String, NarInfo.parse_line ("NarSize:" ++ v) =
        (NarInfo.parse_u64 "NarSize" (rustTrim v)).map .NarSize) ∧
    (∀ k v : String, (∀ c ∈ k.data, c ≠ ':') → k ≠ "Compression" →
        k ≠ "FileSize" → k ≠ "NarSize" →
        NarInfo.parse_line (k ++ ":" ++ v) = .error (.LineUnknownKey k)) ∧
    NarInfo.parse_line "compression: xz" =
      .error (.LineUnknownKey "compression") := by
  refine ⟨?_, parse_line_compression, parse_line_filesize, parse_line_narsize,
    parse_line_unknown, by decide⟩
  intro line h
  unfold NarInfo.parse_line
  rw [splitOnceColon_of_no_colon line.data h]

/-- C7, witness: the crate's own `parse_line_badly_formatted` test vector —
a colon-free line fails with `LineCorruptNoColon`. -/
theorem c7_first_colon_split_witness :
    NarInfo.parse_line "hello goodbye" =
      .error (.LineCorruptNoColon "hello goodbye") :=
  c7_first_colon_split.1 "hello goodbye" (by decide)

/-- C9: for the recognized whitespace-free-token key (`Compression` is the
only such key `parse_line` dispatches), a value that is empty after
trimming is accepted, yielding the datum with the empty string. -/
theorem c9_empty_value_accepted :
    (∀ v : String, rustTrim v = "" →
        NarInfo.parse_line ("Compression:" ++ v) = .ok (.Compression "")) ∧
    NarInfo.parse_line "Compression:" = .ok (.Compression "") := by
  constructor
  · intro v ht
    rw [parse_line_compression v, ht,
      parse_str_no_spaces_ok "Compression" "" (by decide)]
    rfl
  · decide

/-- C9, witness: a `Compression` line whose value is whitespace only. -/
theorem c9_empty_value_accepted_witness :
    NarInfo.parse_line ("Compression:" ++ "  ") = .ok (.Compression "") :=
  c9_empty_value_accepted.1 "  " (by decide)

/-- C10: the whitespace-free-token validation rejects only the ASCII space
`' '`: any value free of that character — internal tabs included — is
accepted verbatim, and the line `"Compression: x\tz"` parses to
`Compression "x\tz"`. -/
theorem c10_only_ascii_space_rejected :
    (∀ key v : String, (∀ c ∈ v.data, c ≠ ' ') →
        NarInfo.parse_str_no_spaces key v = .ok v) ∧
    NarInfo.parse_line "Compression: x\tz" = .ok (.Compression "x\tz") := by
  exact ⟨parse_str_no_spaces_ok, by decide⟩

/-- C10, witness: the crate's own `parse_str_unexpected_space` test vector —
a space-free value is returned verbatim. -/
theorem c10_only_ascii_space_rejected_witness :
    NarInfo.parse_str_no_spaces "FooStr" "foobarbaz" = .ok "foobarbaz" :=
  c10_only_ascii_space_rejected.1 "FooStr" "foobarbaz" (by decide)

/-! Lemmas about the `u64` decoder. -/

theorem rustParseU64_neg (s : String) :
    rustParseU64 ("-" ++ s) = .error .InvalidDigit := by
  unfold rustParseU64
  rw [show ("-" ++ s : String).data = '-' :: s.data from rfl]
  simp [rustParseU64Core]

theorem rustParseU64Core_of_digits (l : List Char) (h0 : l ≠ [])
    (hd : l.all Char.isDigit) :
    rustParseU64Core l = parseU64Digits l 0 := by
  cases l with
  | nil => exact absurd rfl h0
  | cons c t =>
    have hcd : c.isDigit := by
      have := List.all_eq_true.mp hd c (List.mem_cons_self c t)
      exact this
    have hp : c ≠ '+' := fun e => by rw [e] at hcd; exact absurd hcd (by decide)
    have hm : c ≠ '-' := fun e => by rw [e] at hcd; exact absurd hcd (by decide)
    simp only [rustParseU64Core]
    rw [if_neg hp, if_neg hm]

theorem rustParseU64_plus (s : String) (h0 : s.data ≠ [])
    (hd : s.data.all Char.isDigit) :
    rustParseU64 ("+" ++ s) = rustParseU64 s := by
  unfold rustParseU64
  rw [rustParseU64Core_of_digits s.data h0 hd,
    show ("+" ++ s : String).data = '+' :: s.data from rfl]
  simp only [rustParseU64Core]
  rw [if_pos trivial, if_neg h0]

theorem parseU64Digits_zero_cons (l : List Char) :
    parseU64Digits ('0' :: l) 0 = parseU64Digits l 0 := by
  simp [parseU64Digits, u64Bound]

theorem rustParseU64_leading_zero (s : String) (h0 : s.data ≠ [])
    (hd : s.data.all Char.isDigit) :
    rustParseU64 ("0" ++ s) = rustParseU64 s := by
  unfold rustParseU64
  rw [rustParseU64Core_of_digits s.data h0 hd,
    show ("0" ++ s : String).data = '0' :: s.data from rfl]
  simp only [rustParseU64Core]
  rw [if_neg (by decide : ¬('0' = '+')), if_neg (by decide : ¬('0' = '-'))]
  exact parseU64Digits_zero_cons s.data

/-- An accepted `u64` string is digits only, or one `'+'` then digits. -/
theorem rustParseU64Core_ok_shape (l : List Char) (m : Nat)
    (h : rustParseU64Core l = .ok m) :
    l.all Char.isDigit ∨ ∃ t, l = '+' :: t ∧ t ≠ [] ∧ t.all Char.isDigit := by
  cases l with
  | nil => exact absurd h (by simp [rustParseU64Core])
  | cons c t =>
    simp only [rustParseU64Core] at h
    by_cases hp : c = '+'
    · rw [if_pos hp] at h
      by_cases ht : t = []
      · rw [if_pos ht] at h
        exact absurd h (by simp)
      · rw [if_neg ht] at h
        exact Or.inr ⟨t, by rw [hp], ht, parseU64Digits_ok_all_digits t 0 m h⟩
    · rw [if_neg hp] at h
      by_cases hm : c = '-'
      · rw [if_pos hm] at h
        exact absurd h (by simp)
      · rw [if_neg hm] at h
        exact Or.inl (parseU64Digits_ok_all_digits (c :: t) 0 m h)

/-- C4, counterexample: the integer error carries the key and the parse
diagnostic but NOT the original offending text — two distinct offending
texts for the same key produce identical error values, so the error cannot
contain the text. -/
theorem c4_counterexample_error_lacks_text :
    NarInfo.parse_u64 "NarSize" "abc" = NarInfo.parse_u64 "NarSize" "xyz" ∧
    NarInfo.parse_u64 "NarSize" "abc" =
      .error (.InvalidU64 "NarSize" .InvalidDigit) ∧
    ("abc" : String) ≠ "xyz" := by
  decide

/-- C4, amended: for every numeric-field value that is not a valid base-10
unsigned 64-bit integer, decoding fails with `InvalidU64` carrying the
offending KEY (not the offending text) and the underlying parse diagnostic,
which distinguishes non-digit (`InvalidDigit`), overflow (`PosOverflow`)
and empty input (`Empty`). -/
theorem c4_amended_invalid_u64 :
    (∀ (key v : String) (e : IntErrorKind), rustParseU64 v = .error e →
        NarInfo.parse_u64 key v = .error (.InvalidU64 key e)) ∧
    (∀ (key v : String) (n : Nat), rustParseU64 v = .ok n →
        NarInfo.parse_u64 key v = .ok n) ∧
    rustParseU64 "12abc" = .error .InvalidDigit ∧
    rustParseU64 "18446744073709551616" = .error .PosOverflow ∧
    rustParseU64 "18446744073709551615" = .ok 18446744073709551615 ∧
    rustParseU64 "" = .error .Empty ∧
    (IntErrorKind.InvalidDigit ≠ .PosOverflow ∧
      IntErrorKind.InvalidDigit ≠ .Empty ∧ IntErrorKind.PosOverflow ≠ .Empty) := by
  refine ⟨?_, ?_, by decide, by decide, by decide, by decide, by decide⟩
  · intro key v e h
    unfold NarInfo.parse_u64
    rw [h]
  · intro key v n h
    unfold NarInfo.parse_u64
    rw [h]

/-- C4, witness: the crate's own `parse_u64_invalid_digit` test vector —
`"abc123"` under key `"FooSize"` fails with the key and the `InvalidDigit`
diagnostic. -/
theorem c4_amended_invalid_u64_witness :
    NarInfo.parse_u64 "FooSize" "abc123" =
      .error (.InvalidU64 "FooSize" .InvalidDigit) :=
  c4_amended_invalid_u64.1 "FooSize" "abc123" .InvalidDigit (by decide)

/-- C5, counterexample: a leading `'+'` is NOT rejected — Rust's
`str::parse::<u64>` skips one leading `'+'`, so `"+123"` decodes to `123`. -/
theorem c5_counterexample_plus_sign_accepted :
    NarInfo.parse_u64 "FileSize" "+123" = .ok 123 := by
  decide

/-- C5, amended: numeric decoding of `FileSize` and `NarSize` accepts
unsigned base-10 digit strings, optionally preceded by a single leading
`'+'`; a leading `'-'` is rejected with `InvalidDigit`, leading zeros are
accepted, and every accepted string is (an optional `'+'` followed by)
digits only. -/
theorem c5_amended_numeric :
    (∀ key s : String, NarInfo.parse_u64 key ("-" ++ s) =
        .error (.InvalidU64 key .InvalidDigit)) ∧
    (∀ key s : String, s.data ≠ [] → s.data.all Char.isDigit →
        NarInfo.parse_u64 key ("+" ++ s) = NarInfo.parse_u64 key s) ∧
    (∀ key s : String, s.data ≠ [] → s.data.all Char.isDigit →
        NarInfo.parse_u64 key ("0" ++ s) = NarInfo.parse_u64 key s) ∧
    (∀ (key s : String) (n : Nat), NarInfo.parse_u64 key s = .ok n →
        s.data.all Char.isDigit ∨
          ∃ t, s.data = '+' :: t ∧ t ≠ [] ∧ t.all Char.isDigit) ∧
    NarInfo.parse_u64 "FileSize" "007" = .ok 7 := by
  refine ⟨?_, ?_, ?_, ?_, by decide⟩
  · intro key s
    unfold NarInfo.parse_u64
    rw [rustParseU64_neg s]
  · intro key s h0 hd
    unfold NarInfo.parse_u64
    rw [rustParseU64_plus s h0 hd]
  · intro key s h0 hd
    unfold NarInfo.parse_u64
    rw [rustParseU64_leading_zero s h0 hd]
  · intro key s n h
    unfold NarInfo.parse_u64 at h
    cases hr : rustParseU64 s with
    | error e => rw [hr] at h; exact absurd h (by simp)
    | ok m =>
      unfold rustParseU64 at hr
      exact rustParseU64Core_ok_shape s.data m hr

/-- C5, witness: the amended theorem at concrete inputs — `"+5"` decodes
like `"5"` and `"-5"` is rejected. -/
theorem c5_amended_numeric_witness :
    NarInfo.parse_u64 "FileSize" ("+" ++ "5") = NarInfo.parse_u64 "FileSize" "5" ∧
    NarInfo.parse_u64 "FileSize" ("-" ++ "5") =
      .error (.InvalidU64 "FileSize" .InvalidDigit) :=
  ⟨c5_amended_numeric.2.1 "FileSize" "5" (by decide) (by decide),
   c5_amended_numeric.1 "FileSize" "5"⟩

/-- C2: `parse_string` (the Record Assembler is modelled from the spec;
the source body is `todo!()`) always yields either a fully assembled
`NarInfo` record or a structured `AssembleErr` — never anything partial —
and a field-parser failure aborts the scan tagged with its line number and
the underlying error, which names the offending key where one exists. -/
theorem c2_output_contract :
    (∀ s : String, (∃ r : NarInfo, NarInfo.parse_string s = .ok r) ∨
        (∃ e : AssembleErr, NarInfo.parse_string s = .error e)) ∧
    (∀ (l : List Char) (rest : List (List Char)) (n : Nat) (b : Builder)
        (pe : ParseErr), NarInfo.parse_line ⟨l⟩ = .error pe →
        assembleLoop (l :: rest) n b = .error (.Line n pe)) := by
  constructor
  · intro s
    cases NarInfo.parse_string s with
    | ok r => exact Or.inl ⟨r, rfl⟩
    | error e => exact Or.inr ⟨e, rfl⟩
  · intro l rest n b pe h
    unfold assembleLoop
    rw [h]

/-- C2, witness: a colon-free first line aborts assembly at line 1 with the
structured error. -/
theorem c2_output_contract_witness :
    assembleLoop ["hello".data] 1 {} =
      .error (.Line 1 (.LineCorruptNoColon "hello")) :=
  c2_output_contract.2 "hello".data [] 1 {} (.LineCorruptNoColon "hello")
    (by decide)

/-- C3: the empty input string is a document with zero parseable lines and
`parse_string` (spec-modelled assembler) fails with `DocumentEmpty`. -/
theorem c3_empty_input_document_empty :
    NarInfo.parse_string "" = .error .DocumentEmpty := by
  decide

/-- C8: after all lines are consumed the assembler (modelled from the spec)
checks every required field, and when any are absent it fails with
`MissingField` listing every missing field at once — shown both for the
final check on an arbitrary builder and end-to-end on a document whose
three lines all parse but which leaves six required fields unset. -/
theorem c8_missing_fields_all_at_once :
    (∀ b : Builder, missingKeys b ≠ [] →
        finishBuilder b = .error (.MissingField (missingKeys b))) ∧
    NarInfo.parse_string "Compression: xz\nFileSize: 1\nNarSize: 2" =
      .error (.MissingField
        ["StorePath", "URL", "FileHash", "NarHash", "Deriver", "Sig"]) := by
  constructor
  · intro b hb
    unfold finishBuilder
    split
    · exfalso
      apply hb
      simp_all [missingKeys]
    · rfl
  · decide

/-- C8, witness: the empty builder is missing all nine required fields and
the final check reports the full list. -/
theorem c8_missing_fields_all_at_once_witness :
    finishBuilder {} =
      .error (.MissingField ["StorePath", "URL", "Compression", "FileHash",
        "FileSize", "NarHash", "NarSize", "Deriver", "Sig"]) := by
  have h := c8_missing_fields_all_at_once.1 {} (by decide)
  rw [h]
  rfl
